import Mathlib

/-!
Shallow embedding of the Broadlink integration (device session, watchdog,
discovery config flow) and proofs of its specified properties.

Sources embedded:
- homeassistant/components/broadlink/device.py
- homeassistant/components/broadlink/watchdog.py
- homeassistant/components/broadlink/config_flow.py
- homeassistant/components/broadlink/const.py
-/

/-- Errors raised by the device-protocol library and the OS, as caught by
`device.py`. `AuthenticationError`, `AuthorizationError`,
`ConnectionClosedError` and `NetworkTimeoutError` are all subclasses of
`BroadlinkException`; `osError` models Python `OSError` with its errno. -/
inductive Err where
  | authenticationError
  | authorizationError
  | connectionClosedError
  | networkTimeoutError
  | osError (errno : Int)
  | otherBroadlinkError
deriving DecidableEq

/-- The mutable state of a `BroadlinkDevice` that the session claims are
about: `authorized` is the Python attribute (None / True / False), and
`reauth_flows` counts the re-authentication config flows created via
`hass.config_entries.flow.async_init(..., context=source reauth)`. -/
structure DeviceState where
  authorized : Option Bool
  reauth_flows : Nat
deriving DecidableEq

/-- The state of a freshly constructed `BroadlinkDevice` (`__init__` sets
`self.authorized = None`). -/
def init_device_state : DeviceState := ⟨none, 0⟩

/-- Embeds `BroadlinkDevice._async_handle_auth_error` (device.py lines
194-212): if `self.authorized is False` it returns immediately; otherwise it
sets `authorized = False` and creates one reauth config flow. -/
def handle_auth_error (s : DeviceState) : DeviceState :=
  if s.authorized = some false then s
  else { authorized := some false, reauth_flows := s.reauth_flows + 1 }

/-- Embeds `BroadlinkDevice.async_auth` (device.py lines 171-182).
`auth_result` is the outcome of the blocking `self.api.auth()` call:
`none` means it returned normally, `some e` means it raised `e`.  All `Err`
variants are instances of `(BroadlinkException, OSError)`, so every raised
error is caught; `_async_handle_auth_error` runs only for
`AuthenticationError`, and the method returns `False` on any error,
`True` on success. -/
def async_auth (auth_result : Option Err) (s : DeviceState) : Bool × DeviceState :=
  match auth_result with
  | none => (true, s)
  | some e =>
      (false, if e = Err.authenticationError then handle_auth_error s else s)

/-- Whether `async_request` catches the error of the first attempt: the
`except (AuthorizationError, ConnectionClosedError)` clause. -/
def retryable : Err → Bool
  | Err.authorizationError => true
  | Err.connectionClosedError => true
  | _ => false

/-- Observable trace of one `async_request` call: its outcome, how many
times the wrapped request was invoked, how many times `async_auth` was
invoked, and the resulting device state. -/
structure ReqTrace (α : Type) where
  result : Except Err α
  request_calls : Nat
  auth_calls : Nat
  state : DeviceState

/-- Embeds `BroadlinkDevice.async_request` (device.py lines 184-192).
`request n` is the outcome of the `n`-th invocation of the wrapped
operation.  The first invocation runs; on `AuthorizationError` or
`ConnectionClosedError` the method calls `async_auth` once; if that returns
`False` the bare `raise` re-raises the original error, otherwise the
operation is invoked a second time and its outcome is returned. -/
def async_request {α : Type} (request : Nat → Except Err α)
    (auth_result : Option Err) (s : DeviceState) : ReqTrace α :=
  match request 0 with
  | Except.ok v => ⟨Except.ok v, 1, 0, s⟩
  | Except.error e =>
      if retryable e then
        match async_auth auth_result s with
        | (true, s₂) => ⟨request 1, 2, 1, s₂⟩
        | (false, s₂) => ⟨Except.error e, 1, 1, s₂⟩
      else ⟨Except.error e, 1, 0, s⟩

/-- One failed authentication attempt: `api.auth()` raises
`AuthenticationError` and `async_auth` handles it. -/
def fail_auth_step (s : DeviceState) : DeviceState :=
  (async_auth (some Err.authenticationError) s).2

/-- A sequence of `n` failed authentication attempts in a row. -/
def fail_auth_iter : Nat → DeviceState → DeviceState
  | 0, s => s
  | n + 1, s => fail_auth_iter n (fail_auth_step s)

/-- Control-flow outcome of the handshake portion of
`BroadlinkDevice.async_setup`: normal continuation, `return False`, or
`raise ConfigEntryNotReady`. -/
inductive SetupOutcome where
  | success
  | return_false
  | raise_not_ready
deriving DecidableEq

/-- Embeds the handshake try/except of `BroadlinkDevice.async_setup`
(device.py lines 112-129).  `AuthenticationError` runs
`_async_handle_auth_error` and returns `False`; `NetworkTimeoutError` and
`OSError` raise `ConfigEntryNotReady`; any other `BroadlinkException` is
logged and returns `False`; on success the code continues with
`self.authorized = True`. -/
def async_setup_handshake (auth_result : Option Err) (s : DeviceState) :
    SetupOutcome × DeviceState :=
  match auth_result with
  | none => (SetupOutcome.success, { s with authorized := some true })
  | some Err.authenticationError =>
      (SetupOutcome.return_false, handle_auth_error s)
  | some Err.networkTimeoutError => (SetupOutcome.raise_not_ready, s)
  | some (Err.osError _) => (SetupOutcome.raise_not_ready, s)
  | some _ => (SetupOutcome.return_false, s)

/-- Embeds `DOMAINS_AND_TYPES` from const.py. -/
def DOMAINS_AND_TYPES : List (String × List String) :=
  [("remote", ["RM2", "RM4"]),
   ("sensor", ["A1", "RM2", "RM4"]),
   ("switch", ["MP1", "RM2", "RM4", "SP1", "SP2"])]

/-- Embeds `get_domains` from device.py: the domains whose type list
contains the device type. -/
def get_domains (device_type : String) : List String :=
  (DOMAINS_AND_TYPES.filter (fun p => p.2.contains device_type)).map Prod.fst

/-- The parts of a `BroadlinkDevice` that `async_unload` reads and writes:
`update_manager` (abstracted to presence), the `reset_jobs` list, and the
device type of `self.api`. -/
structure UnloadDevice where
  update_manager : Option Unit
  reset_jobs : List Unit
  api_type : String
deriving DecidableEq

/-- Embeds `BroadlinkDevice.async_unload` (device.py lines 156-169): if
`update_manager is None` it returns `True` at once; otherwise it pops every
reset job and returns `all(results)` of forwarding entry unload to each
domain of the device type.  `forward_entry_unload` gives the result per
domain. -/
def async_unload (forward_entry_unload : String → Bool) (d : UnloadDevice) :
    Bool × UnloadDevice :=
  match d.update_manager with
  | none => (true, d)
  | some _ =>
      ((get_domains d.api_type).all forward_entry_unload,
        { d with reset_jobs := [] })

/-- An IPv4 address as its four octets (the result of
`socket.inet_aton`). -/
structure IPv4 where
  o0 : Nat
  o1 : Nat
  o2 : Nat
  o3 : Nat
deriving DecidableEq

/-- The first three octets of an address: `socket.inet_aton(addr)[:3]`,
used by the watchdog to compare /24-equivalent networks. -/
def IPv4.first3 (ip : IPv4) : Nat × Nat × Nat := (ip.o0, ip.o1, ip.o2)

/-- Embeds the `uncovered_hosts` set comprehension of
`BroadlinkWatchdog.keep_alive` (watchdog.py lines 62-68).
`get_ip_or_none` resolves a configured host string to an address or `None`;
`hosts` is a set (`dedup`), entries that resolved to `None` are dropped by
the `if host` guard (`filterMap id`), and a host is kept when its first
three octets are not among the broadcast networks. -/
def uncovered_hosts (get_ip_or_none : String → Option IPv4)
    (broadcast_addrs : List IPv4) (entry_hosts : List String) : List IPv4 :=
  let networks := broadcast_addrs.map IPv4.first3
  (((entry_hosts.map get_ip_or_none).dedup).filterMap id).filter
    (fun h => decide (h.first3 ∉ networks))

/-- Embeds `BroadlinkWatchdog.keep_alive` (watchdog.py lines 60-76) as the
sequence of addresses it sends a keep-alive packet to:
`chain(broadcast_addrs, uncovered_hosts)`. -/
def keep_alive (get_ip_or_none : String → Option IPv4)
    (broadcast_addrs : List IPv4) (entry_hosts : List String) : List IPv4 :=
  broadcast_addrs ++ uncovered_hosts get_ip_or_none broadcast_addrs entry_hosts

/-- Embeds the send loop of `BroadlinkWatchdog.keep_alive` (watchdog.py
lines 70-76): each address is attempted, an `OSError` is caught and logged
and the loop continues; the trace pairs every attempted address with the
outcome of its `blk.keep_alive` call. -/
def send_loop (send_ok : IPv4 → Bool) : List IPv4 → List (IPv4 × Bool)
  | [] => []
  | a :: rest => (a, send_ok a) :: send_loop send_ok rest

/-- A device descriptor as the discovery flow sees it: `mac` is
`device.mac.hex()` and `host` is `device.host[0]`. -/
structure Descriptor where
  mac : String
  host : String
deriving DecidableEq

/-- Embeds the list comprehension of
`BroadlinkFlowHandler.async_step_discover` (config_flow.py lines 180-185):
keep the discovered devices whose MAC is neither already configured nor in
an in-progress flow. -/
def filter_new (already_configured in_progress : List String)
    (ds : List Descriptor) : List Descriptor :=
  ds.filter (fun d =>
    !already_configured.contains d.mac && !in_progress.contains d.mac)

/-- Embeds the probe loop of `async_step_discover` (config_flow.py lines
166-186).  `discover addr` is the outcome of `blk.discover` on one
broadcast address: a list of responding descriptors, or an `OSError`
(caught; the loop records an error reason and continues).  Returns the
attempted addresses and the accumulated `devices` list. -/
def discover_loop (discover : String → Except Unit (List Descriptor))
    (already_configured in_progress : List String) :
    List String → List String × List Descriptor
  | [] => ([], [])
  | addr :: rest =>
      let tail := discover_loop discover already_configured in_progress rest
      match discover addr with
      | Except.error _ => (addr :: tail.1, tail.2)
      | Except.ok nds =>
          (addr :: tail.1, filter_new already_configured in_progress nds ++ tail.2)

/-- All descriptors returned by the probes that did not raise, in probe
order. -/
def responders (discover : String → Except Unit (List Descriptor)) :
    List String → List Descriptor
  | [] => []
  | addr :: rest =>
      (match discover addr with
       | Except.ok nds => nds
       | Except.error _ => []) ++ responders discover rest

/-- Result of a config-flow step: `abort reason`, continue into
`async_step_user` with a chosen host, or show a form with the given step id
and the selectable hosts. -/
inductive FlowResult where
  | abort (reason : String)
  | proceed_user (host : String)
  | show_form (step : String) (host_choices : List String)
deriving DecidableEq

/-- Embeds the tail of `async_step_discover` (config_flow.py lines
188-216): no devices → abort with reason `no_devices_found` (the local
`errors` dict is never filled in this method, so the reason is always
overwritten); exactly one device → continue to `async_step_user` with its
host; otherwise show the `discover` form whose required field selects among
the device hosts. -/
def discover_outcome : List Descriptor → FlowResult
  | [] => FlowResult.abort "no_devices_found"
  | [d] => FlowResult.proceed_user d.host
  | ds => FlowResult.show_form "discover" (ds.map Descriptor.host)

/-- The whole of `async_step_discover` after the broadcast addresses are
fixed: run the probe loop, then dispatch on the devices found. -/
def async_step_discover (discover : String → Except Unit (List Descriptor))
    (already_configured in_progress : List String)
    (broadcast_addrs : List String) : FlowResult :=
  discover_outcome
    (discover_loop discover already_configured in_progress broadcast_addrs).2

/-- One failed authentication attempt is exactly
`_async_handle_auth_error`: the identity on an already-locked state, and a
lock-plus-one-flow otherwise. -/
theorem fail_auth_step_eq (s : DeviceState) :
    fail_auth_step s =
      if s.authorized = some false then s
      else ⟨some false, s.reauth_flows + 1⟩ := by
  simp [fail_auth_step, async_auth, handle_auth_error]

/-- A locked state is a fixed point of repeated failed authentication. -/
theorem fail_auth_iter_locked (n : Nat) (s : DeviceState)
    (h : s.authorized = some false) : fail_auth_iter n s = s := by
  induction n with
  | zero => rfl
  | succ n ih =>
      rw [fail_auth_iter, fail_auth_step_eq, if_pos h]
      exact ih

/-- C1: in one `async_request` call the wrapped operation runs at most
twice and `async_auth` at most once; if the first run raises an
authorization-revoked or connection-closed error, exactly one
re-authentication attempt is made, and then: if it succeeds the operation
is retried exactly once and its outcome returned, while if it fails the
original error is re-raised unchanged with no retry. -/
theorem c1_async_request_single_retry {α : Type}
    (request : Nat → Except Err α) (auth_result : Option Err)
    (s : DeviceState) :
    (async_request request auth_result s).request_calls ≤ 2 ∧
    (async_request request auth_result s).auth_calls ≤ 1 ∧
    ∀ e, request 0 = Except.error e → retryable e = true →
      (async_request request auth_result s).auth_calls = 1 ∧
      (auth_result = none →
        (async_request request auth_result s).request_calls = 2 ∧
        (async_request request auth_result s).result = request 1) ∧
      (∀ e₂, auth_result = some e₂ →
        (async_request request auth_result s).result = Except.error e ∧
        (async_request request auth_result s).request_calls = 1) := by
  cases h0 : request 0 with
  | ok v =>
      refine ⟨?_, ?_, ?_⟩ <;> simp [async_request, h0]
  | error e =>
      cases har : auth_result with
      | none =>
          by_cases hr : retryable e
          · refine ⟨?_, ?_, ?_⟩ <;>
              simp [async_request, h0, hr, async_auth]
          · refine ⟨?_, ?_, ?_⟩ <;>
              simp [async_request, h0, hr, async_auth]
      | some e₃ =>
          by_cases hr : retryable e
          · refine ⟨?_, ?_, ?_⟩ <;>
              simp [async_request, h0, hr, async_auth]
          · refine ⟨?_, ?_, ?_⟩ <;>
              simp [async_request, h0, hr, async_auth]

/-- Witness for C1 at concrete inputs: a first call failing with
`AuthorizationError`; with a failing re-authentication the original error
is returned after one invocation, with a succeeding one the retry result is
returned after two invocations. -/
theorem c1_async_request_single_retry_witness :
    (async_request
        (fun n => if n = 0 then Except.error Err.authorizationError
                  else Except.ok 7)
        (some Err.networkTimeoutError) init_device_state).result =
      Except.error Err.authorizationError ∧
    (async_request
        (fun n => if n = 0 then Except.error Err.connectionClosedError
                  else Except.ok 5)
        none init_device_state).request_calls = 2 := by
  constructor
  · exact (((c1_async_request_single_retry
      (fun n => if n = 0 then Except.error Err.authorizationError
                else Except.ok 7)
      (some Err.networkTimeoutError) init_device_state).2.2
      Err.authorizationError rfl rfl).2.2 Err.networkTimeoutError rfl).1
  · exact (((c1_async_request_single_retry
      (fun n => if n = 0 then Except.error Err.connectionClosedError
                else Except.ok 5)
      none init_device_state).2.2
      Err.connectionClosedError rfl rfl).2.1 rfl).1

/-- C3: for any run of `n ≥ 1` consecutive failed authentication attempts
starting from a state that is not already locked, exactly one reauth config
flow is created (at the transition into the locked state), and further
failures on an already-locked state change nothing at all. -/
theorem c3_reauth_flow_edge_triggered (s : DeviceState) (n : Nat) :
    (1 ≤ n → s.authorized ≠ some false →
      (fail_auth_iter n s).reauth_flows = s.reauth_flows + 1 ∧
      (fail_auth_iter n s).authorized = some false) ∧
    (s.authorized = some false → fail_auth_iter n s = s) := by
  constructor
  · intro hn hna
    cases n with
    | zero => exact absurd hn (by omega)
    | succ m =>
        rw [fail_auth_iter, fail_auth_step_eq, if_neg hna,
          fail_auth_iter_locked m _ rfl]
        exact ⟨rfl, rfl⟩
  · exact fail_auth_iter_locked n s

/-- Witness for C3: three failed attempts on a fresh device create exactly
one reauth flow, and three more on the resulting locked state create none. -/
theorem c3_reauth_flow_edge_triggered_witness :
    (fail_auth_iter 3 init_device_state).reauth_flows = 0 + 1 ∧
    fail_auth_iter 3 (⟨some false, 1⟩ : DeviceState) = ⟨some false, 1⟩ := by
  exact ⟨((c3_reauth_flow_edge_triggered init_device_state 3).1 (by omega)
      (by simp [init_device_state])).1,
    (c3_reauth_flow_edge_triggered ⟨some false, 1⟩ 3).2 rfl⟩

/-- C6: in `async_setup`, a handshake failure with `NetworkTimeoutError`
or `OSError` raises `ConfigEntryNotReady` (so the framework retries
later) and leaves the state untouched, while `AuthenticationError` makes
`async_setup` return `False` and, when the device was not already locked,
locks it and creates the guided re-authentication flow. -/
theorem c6_setup_error_policy (s : DeviceState) (e : Int) :
    async_setup_handshake (some Err.networkTimeoutError) s =
      (SetupOutcome.raise_not_ready, s) ∧
    async_setup_handshake (some (Err.osError e)) s =
      (SetupOutcome.raise_not_ready, s) ∧
    (async_setup_handshake (some Err.authenticationError) s).1 =
      SetupOutcome.return_false ∧
    (s.authorized ≠ some false →
      (async_setup_handshake (some Err.authenticationError) s).2.reauth_flows
        = s.reauth_flows + 1 ∧
      (async_setup_handshake (some Err.authenticationError) s).2.authorized
        = some false) := by
  refine ⟨rfl, rfl, rfl, fun h => ?_⟩
  simp [async_setup_handshake, handle_auth_error, if_neg h]

/-- Witness for C6 on a fresh device: timeout and OS errors leave setup
retriable, authentication denial returns failure and creates one reauth
flow. -/
theorem c6_setup_error_policy_witness :
    async_setup_handshake (some Err.networkTimeoutError) init_device_state =
      (SetupOutcome.raise_not_ready, init_device_state) ∧
    (async_setup_handshake (some Err.authenticationError)
        init_device_state).2.reauth_flows = 0 + 1 := by
  exact ⟨(c6_setup_error_policy init_device_state 0).1,
    ((c6_setup_error_policy init_device_state 0).2.2.2
      (by simp [init_device_state])).1⟩

/-- C7: after filtering, zero devices abort the flow with reason
`no_devices_found`, exactly one device proceeds straight to
`async_step_user` with that device's host, and two or more devices show
the `discover` form selecting among the hosts. -/
theorem c7_discover_outcome_dispatch (ds : List Descriptor) :
    (ds = [] → discover_outcome ds = FlowResult.abort "no_devices_found") ∧
    (∀ d, ds = [d] → discover_outcome ds = FlowResult.proceed_user d.host) ∧
    (2 ≤ ds.length →
      discover_outcome ds =
        FlowResult.show_form "discover" (ds.map Descriptor.host)) := by
  cases ds with
  | nil =>
      exact ⟨fun _ => rfl, fun d h => by simp at h, fun h => by simp at h⟩
  | cons a t =>
      cases t with
      | nil =>
          refine ⟨fun h => by simp at h, fun d h => ?_, fun h => by simp at h⟩
          cases h
          rfl
      | cons b t₂ =>
          exact ⟨fun h => by simp at h, fun d h => by simp at h, fun _ => rfl⟩

/-- Witness for C7 at concrete inputs of size zero, one and two. -/
theorem c7_discover_outcome_dispatch_witness :
    discover_outcome [] = FlowResult.abort "no_devices_found" ∧
    discover_outcome [⟨"aa", "h1"⟩] = FlowResult.proceed_user "h1" ∧
    discover_outcome [⟨"aa", "h1"⟩, ⟨"bb", "h2"⟩] =
      FlowResult.show_form "discover" ["h1", "h2"] := by
  exact ⟨(c7_discover_outcome_dispatch []).1 rfl,
    (c7_discover_outcome_dispatch [⟨"aa", "h1"⟩]).2.1 ⟨"aa", "h1"⟩ rfl,
    (c7_discover_outcome_dispatch [⟨"aa", "h1"⟩, ⟨"bb", "h2"⟩]).2.2
      (by simp)⟩

/-- C8: `async_unload` on a device whose `update_manager` is `None`
returns `True` and changes nothing, so a second call returns `True` as
well. -/
theorem c8_unload_idempotent (f : String → Bool) (d : UnloadDevice)
    (h : d.update_manager = none) :
    async_unload f d = (true, d) ∧
    async_unload f (async_unload f d).2 = (true, d) := by
  have h1 : async_unload f d = (true, d) := by
    simp [async_unload, h]
  exact ⟨h1, by rw [h1]; exact h1⟩

/-- A probe function under which the same device (MAC `aabbcc`) responds
on two different broadcast addresses. -/
def same_mac_probe : String → Except Unit (List Descriptor) := fun addr =>
  if addr = "192.168.0.255" then Except.ok [⟨"aabbcc", "192.168.0.2"⟩]
  else Except.ok [⟨"aabbcc", "10.0.0.2"⟩]

/-- Counterexample to C2 as stated: when the device with MAC `aabbcc`
responds on both probed interfaces, the discovery loop keeps both entries;
nothing collapses duplicates by MAC within one run. -/
theorem c2_no_mac_dedup_counterexample :
    (discover_loop same_mac_probe [] []
        ["192.168.0.255", "10.0.0.255"]).2 =
      [⟨"aabbcc", "192.168.0.2"⟩, ⟨"aabbcc", "10.0.0.2"⟩] ∧
    (discover_loop same_mac_probe [] []
        ["192.168.0.255", "10.0.0.255"]).2.length ≠ 1 := by
  exact ⟨by decide, by decide⟩

/-- C2 amended: the devices collected by `async_step_discover` are exactly
the responding descriptors whose MAC is neither already configured nor in
an in-progress flow, kept in probe order with one entry per response — so
the count is N when the N responses survive the filter, but a device
responding on several interfaces is kept once per response, not collapsed
by MAC. -/
theorem c2_discover_collects_responders
    (discover : String → Except Unit (List Descriptor))
    (already_configured in_progress addrs : List String) :
    (discover_loop discover already_configured in_progress addrs).2 =
      filter_new already_configured in_progress (responders discover addrs) ∧
    (∀ d ∈ (discover_loop discover already_configured in_progress addrs).2,
      d.mac ∉ already_configured ∧ d.mac ∉ in_progress) ∧
    ((∀ d ∈ responders discover addrs,
        d.mac ∉ already_configured ∧ d.mac ∉ in_progress) →
      (discover_loop discover already_configured in_progress addrs).2.length
        = (responders discover addrs).length) := by
  have h1 : (discover_loop discover already_configured in_progress addrs).2 =
      filter_new already_configured in_progress (responders discover addrs) := by
    induction addrs with
    | nil => rfl
    | cons a rest ih =>
        cases hd : discover a with
        | error u =>
            simp [discover_loop, responders, hd, ih]
        | ok nds =>
            simp [discover_loop, responders, hd, ih, filter_new,
              List.filter_append]
  refine ⟨h1, ?_, ?_⟩
  · intro d hd
    rw [h1] at hd
    have := List.of_mem_filter hd
    simpa using this
  · intro hall
    rw [h1]
    have : filter_new already_configured in_progress
        (responders discover addrs) = responders discover addrs := by
      rw [filter_new, List.filter_eq_self]
      intro d hd
      simpa using hall d hd
    rw [this]

/-- Witness for C2 amended: with nothing configured or in progress, both
responses of the duplicated-MAC run are kept, so the count equals the
number of responses. -/
theorem c2_discover_collects_responders_witness :
    (discover_loop same_mac_probe [] []
        ["192.168.0.255", "10.0.0.255"]).2.length =
      (responders same_mac_probe ["192.168.0.255", "10.0.0.255"]).length :=
  (c2_discover_collects_responders same_mac_probe [] []
    ["192.168.0.255", "10.0.0.255"]).2.2 (by decide)

/-- Dropping the `None` entries commutes with set formation: deduplicating
before or after the `if host` guard yields the same list. -/
theorem dedup_filterMap_id {α : Type} [DecidableEq α] (l : List (Option α)) :
    (l.dedup).filterMap id = (l.filterMap id).dedup := by
  induction l with
  | nil => rfl
  | cons a l ih =>
      cases a with
      | none =>
          have hr : (none :: l).filterMap id = l.filterMap id := by simp
          rw [hr]
          by_cases h : (none : Option α) ∈ l
          · rw [List.dedup_cons_of_mem h]
            exact ih
          · rw [List.dedup_cons_of_not_mem h]
            simpa using ih
      | some x =>
          have hr : (some x :: l).filterMap id = x :: l.filterMap id := by simp
          rw [hr]
          by_cases h : (some x : Option α) ∈ l
          · have hx : x ∈ l.filterMap id := List.mem_filterMap.2 ⟨some x, h, rfl⟩
            rw [List.dedup_cons_of_mem h, List.dedup_cons_of_mem hx]
            exact ih
          · have hx : x ∉ l.filterMap id := by
              intro hx
              rcases List.mem_filterMap.1 hx with ⟨a, ha, hae⟩
              simp only [id] at hae
              subst hae
              exact h ha
            rw [List.dedup_cons_of_not_mem h, List.dedup_cons_of_not_mem hx]
            simpa using ih

/-- Membership in the watchdog's uncovered-hosts set: exactly the
addresses some configured host resolves to whose first three octets differ
from those of every broadcast address. -/
theorem mem_uncovered_hosts (resolve : String → Option IPv4)
    (B : List IPv4) (H : List String) (h : IPv4) :
    h ∈ uncovered_hosts resolve B H ↔
      ((∃ e ∈ H, resolve e = some h) ∧
        ∀ b ∈ B, IPv4.first3 b ≠ IPv4.first3 h) := by
  simp [uncovered_hosts, List.mem_filter, List.mem_filterMap,
    List.mem_dedup, List.mem_map]

/-- The uncovered-hosts list has no duplicates (it is a Python set). -/
theorem uncovered_hosts_nodup (resolve : String → Option IPv4)
    (B : List IPv4) (H : List String) :
    (uncovered_hosts resolve B H).Nodup := by
  unfold uncovered_hosts
  refine List.Nodup.filter _ (List.Nodup.filterMap ?_ (List.nodup_dedup _))
  intro a a₂ b hb hb₂
  simp only [id, Option.mem_def] at hb hb₂
  rw [hb, hb₂]

/-- An uncovered host is never itself a broadcast address: its first three
octets are outside every broadcast network. -/
theorem uncovered_hosts_not_broadcast (resolve : String → Option IPv4)
    (B : List IPv4) (H : List String) :
    ∀ h ∈ uncovered_hosts resolve B H, h ∉ B := by
  intro h hm hB
  exact ((mem_uncovered_hosts resolve B H h).1 hm).2 h hB rfl

/-- C4: one watchdog pass targets precisely the broadcast addresses
followed by the uncovered hosts, and a resolved configured host is in the
uncovered set exactly when its first three octets differ from those of
every broadcast address — so a host whose /24 prefix matches a broadcast
address gets no individual keep-alive. -/
theorem c4_keep_alive_covers (resolve : String → Option IPv4)
    (B : List IPv4) (H : List String) :
    keep_alive resolve B H = B ++ uncovered_hosts resolve B H ∧
    ∀ h : IPv4, h ∈ uncovered_hosts resolve B H ↔
      ((∃ e ∈ H, resolve e = some h) ∧
        ∀ b ∈ B, IPv4.first3 b ≠ IPv4.first3 h) :=
  ⟨rfl, mem_uncovered_hosts resolve B H⟩

/-- Witness for C4 on the worked example of the specification: host
`10.0.5.7` with broadcast `10.0.0.255` is uncovered, so the pass sends to
both. -/
theorem c4_keep_alive_covers_witness :
    (⟨10, 0, 5, 7⟩ : IPv4) ∈
      uncovered_hosts
        (fun h => if h = "10.0.5.7" then some ⟨10, 0, 5, 7⟩ else none)
        [⟨10, 0, 0, 255⟩] ["10.0.5.7"] ∧
    keep_alive
        (fun h => if h = "10.0.5.7" then some ⟨10, 0, 5, 7⟩ else none)
        [⟨10, 0, 0, 255⟩] ["10.0.5.7"] =
      [⟨10, 0, 0, 255⟩] ++
        uncovered_hosts
          (fun h => if h = "10.0.5.7" then some ⟨10, 0, 5, 7⟩ else none)
          [⟨10, 0, 0, 255⟩] ["10.0.5.7"] := by
  refine ⟨((c4_keep_alive_covers _ _ _).2 ⟨10, 0, 5, 7⟩).2 ?_,
    (c4_keep_alive_covers _ _ _).1⟩
  exact ⟨⟨"10.0.5.7", by decide, by decide⟩, by decide⟩

/-- Counterexample to C5 as stated: with the input list containing the
same broadcast address twice, that distinct address receives two sends in
one pass, so the at-most-one bound fails for an arbitrary input list. -/
theorem c5_duplicate_broadcast_counterexample :
    ¬ ((keep_alive (fun _ => none) [⟨1, 2, 3, 255⟩, ⟨1, 2, 3, 255⟩]
        []).count ⟨1, 2, 3, 255⟩ ≤ 1) := by
  decide

/-- C5 amended: when the broadcast address list has no duplicates, one
watchdog pass sends at most one keep-alive per distinct address, and sends
exactly one to each uncovered host. -/
theorem c5_at_most_one_send (resolve : String → Option IPv4)
    (B : List IPv4) (H : List String) (hB : B.Nodup) :
    (∀ a : IPv4, (keep_alive resolve B H).count a ≤ 1) ∧
    (∀ h ∈ uncovered_hosts resolve B H,
      (keep_alive resolve B H).count h = 1) := by
  have hU := uncovered_hosts_nodup resolve B H
  constructor
  · intro a
    rw [keep_alive, List.count_append]
    by_cases hm : a ∈ uncovered_hosts resolve B H
    · rw [List.count_eq_zero_of_not_mem
        (uncovered_hosts_not_broadcast resolve B H a hm)]
      simpa using List.nodup_iff_count_le_one.1 hU a
    · rw [List.count_eq_zero_of_not_mem hm]
      simpa using List.nodup_iff_count_le_one.1 hB a
  · intro h hm
    rw [keep_alive, List.count_append,
      List.count_eq_zero_of_not_mem
        (uncovered_hosts_not_broadcast resolve B H h hm),
      List.count_eq_one_of_mem hU hm]

/-- Witness for C5 amended, on the specification's example. -/
theorem c5_at_most_one_send_witness :
    (keep_alive
        (fun h => if h = "10.0.5.7" then some ⟨10, 0, 5, 7⟩ else none)
        [⟨10, 0, 0, 255⟩] ["10.0.5.7"]).count ⟨10, 0, 0, 255⟩ ≤ 1 :=
  (c5_at_most_one_send
    (fun h => if h = "10.0.5.7" then some ⟨10, 0, 5, 7⟩ else none)
    [⟨10, 0, 0, 255⟩] ["10.0.5.7"] (by decide)).1 ⟨10, 0, 0, 255⟩

/-- C9: a per-address failure aborts nothing: the discovery loop attempts
every broadcast address whatever each probe returns, and the watchdog send
loop attempts every target whatever each send returns. -/
theorem c9_errors_never_abort_siblings
    (discover : String → Except Unit (List Descriptor))
    (already_configured in_progress addrs : List String)
    (send_ok : IPv4 → Bool) (targets : List IPv4) :
    (discover_loop discover already_configured in_progress addrs).1 = addrs ∧
    (send_loop send_ok targets).map Prod.fst = targets := by
  constructor
  · induction addrs with
    | nil => rfl
    | cons a rest ih =>
        cases hd : discover a <;> simp [discover_loop, hd, ih]
  · induction targets with
    | nil => rfl
    | cons t rest ih => simp [send_loop, ih]

/-- C10: a config entry whose host does not resolve
(`get_ip_or_none` returns `None`) is silently skipped by the watchdog: the
sequence of keep-alive sends is exactly the one without that entry. -/
theorem c10_unresolved_host_skipped (resolve : String → Option IPv4)
    (B : List IPv4) (H₁ H₂ : List String) (e : String)
    (he : resolve e = none) :
    keep_alive resolve B (H₁ ++ e :: H₂) = keep_alive resolve B (H₁ ++ H₂) := by
  have hmap : ((H₁ ++ e :: H₂).map resolve).filterMap id =
      ((H₁ ++ H₂).map resolve).filterMap id := by
    simp [List.map_append, List.filterMap_append, he]
  simp only [keep_alive, uncovered_hosts, dedup_filterMap_id, hmap]

/-- Witness for C10: an entry host that resolves to nothing leaves the
send sequence of the specification's example unchanged. -/
theorem c10_unresolved_host_skipped_witness :
    keep_alive
        (fun h => if h = "10.0.5.7" then some ⟨10, 0, 5, 7⟩ else none)
        [⟨10, 0, 0, 255⟩] ([] ++ "broken.host" :: ["10.0.5.7"]) =
      keep_alive
        (fun h => if h = "10.0.5.7" then some ⟨10, 0, 5, 7⟩ else none)
        [⟨10, 0, 0, 255⟩] ([] ++ ["10.0.5.7"]) :=
  c10_unresolved_host_skipped
    (fun h => if h = "10.0.5.7" then some ⟨10, 0, 5, 7⟩ else none)
    [⟨10, 0, 0, 255⟩] [] ["10.0.5.7"] "broken.host" (by decide)

/-- Witness for C8 on a concrete never-set-up device. -/
theorem c8_unload_idempotent_witness :
    async_unload (fun _ => false) ⟨none, [], "RM4"⟩ =
      (true, (⟨none, [], "RM4"⟩ : UnloadDevice)) ∧
    async_unload (fun _ => false)
        (async_unload (fun _ => false) ⟨none, [], "RM4"⟩).2 =
      (true, (⟨none, [], "RM4"⟩ : UnloadDevice)) :=
  c8_unload_idempotent (fun _ => false) ⟨none, [], "RM4"⟩ rfl

